import Mathlib

/-!
Shallow embedding of the HDFS storage driver adapter
(registry/storage/driver/hdfs/hdfs.go) and proofs about its
write-transaction state machine and path operations.

External calls (the hdfs client library, the transport file handle, io.Copy
chunking) are modelled as oracle inputs: each operation takes the results the
external call would return, and additionally records the external calls it
performs as a trace of effects, so that statements such as "performs no
remove" are expressible.

Machine int64 arithmetic on the cumulative size counter is modelled with
mathematical Int: no claim concerns overflow.
-/

namespace Hdfs

/-- Errors the driver can produce or propagate. The three "already ..."
errors are the fmt.Errorf state-violation conditions of fileWriter;
pathNotFound and invalidOffset are the typed storagedriver conditions;
shortWrite is io.ErrShortWrite; transport is an opaque backend error. -/
inductive GoError where
  | alreadyClosed
  | alreadyCommitted
  | alreadyCancelled
  | pathNotFound (path : String)
  | invalidOffset (path : String) (offset : Int)
  | shortWrite
  | transport (code : Nat)
deriving DecidableEq, Repr

/-- External calls an operation performs, recorded in order. fileWrite
carries the chunk passed to the transport handle and the byte count the
transport accepted. handleOpened marks a successful open of a read handle. -/
inductive Effect where
  | fileWrite (chunk : List Nat) (n : Nat)
  | fileFlush
  | fileClose
  | fileSeek (offset : Int)
  | clientRemove (path : String)
  | clientMkdirAll (path : String)
  | clientStat (path : String)
  | clientAppend (path : String)
  | clientCreate (path : String)
  | clientOpen (path : String)
  | handleOpened
deriving DecidableEq, Repr

/-- State of one write transaction: the fileWriter struct of hdfs.go
(the client and transport handle pointers are externalized as oracles). -/
structure FileWriter where
  path : String
  size : Int
  closed : Bool
  committed : Bool
  cancelled : Bool
deriving DecidableEq, Repr

/-- d.newWriter: a fresh fileWriter with the given path and starting size;
all three flags are zero-valued (false) in Go. -/
def newWriter (path : String) (size : Int) : FileWriter :=
  { path := path, size := size, closed := false, committed := false, cancelled := false }

/-- The Open state of the spec: no flag set. -/
def FileWriter.isOpen (fw : FileWriter) : Bool :=
  !fw.closed && !fw.committed && !fw.cancelled

/-- Result of fileWriter.Write: new state, returned byte count, returned
error, external calls performed. -/
structure WriteResult where
  fw : FileWriter
  n : Nat
  err : Option GoError
  trace : List Effect
deriving DecidableEq, Repr

/-- Result of fileWriter.Close / Cancel / Commit. -/
structure OpResult where
  fw : FileWriter
  err : Option GoError
  trace : List Effect
deriving DecidableEq, Repr

/-- fileWriter.Write. Oracle inputs tn, terr are what fw.file.Write(p)
returns: bytes accepted and error. -/
def FileWriter.Write (fw : FileWriter) (p : List Nat) (tn : Nat) (terr : Option GoError) :
    WriteResult :=
  if fw.closed then ⟨fw, 0, some .alreadyClosed, []⟩
  else if fw.committed then ⟨fw, 0, some .alreadyCommitted, []⟩
  else if fw.cancelled then ⟨fw, 0, some .alreadyCancelled, []⟩
  else ⟨{ fw with size := fw.size + tn }, tn, terr, [.fileWrite p tn]⟩

/-- fileWriter.Close. Oracle inputs are what fw.file.Flush() and
fw.file.Close() return. -/
def FileWriter.Close (fw : FileWriter) (flushErr closeErr : Option GoError) : OpResult :=
  if fw.closed then ⟨fw, some .alreadyClosed, []⟩
  else match flushErr with
    | some e => ⟨fw, some e, [.fileFlush]⟩
    | none =>
      match closeErr with
      | some e => ⟨fw, some e, [.fileFlush, .fileClose]⟩
      | none => ⟨{ fw with closed := true }, none, [.fileFlush, .fileClose]⟩

set_option linter.unusedVariables false in
/-- fileWriter.Cancel. The result of fw.file.Close() is discarded by the
source, so closeErr does not influence the output; the returned error is
exactly what fw.client.Remove(fw.path) returns. -/
def FileWriter.Cancel (fw : FileWriter) (closeErr removeErr : Option GoError) : OpResult :=
  if fw.closed then ⟨fw, some .alreadyClosed, []⟩
  else ⟨{ fw with cancelled := true }, removeErr, [.fileClose, .clientRemove fw.path]⟩

/-- fileWriter.Commit. Oracle input is what fw.file.Flush() returns. -/
def FileWriter.Commit (fw : FileWriter) (flushErr : Option GoError) : OpResult :=
  if fw.closed then ⟨fw, some .alreadyClosed, []⟩
  else if fw.committed then ⟨fw, some .alreadyCommitted, []⟩
  else if fw.cancelled then ⟨fw, some .alreadyCancelled, []⟩
  else match flushErr with
    | some e => ⟨fw, some e, [.fileFlush]⟩
    | none => ⟨{ fw with committed := true }, none, [.fileFlush]⟩

/-- One operation applied to a write transaction, together with the oracle
answers of the external calls it would make. -/
inductive FwOp where
  | write (p : List Nat) (tn : Nat) (terr : Option GoError)
  | close (flushErr closeErr : Option GoError)
  | commit (flushErr : Option GoError)
  | cancel (closeErr removeErr : Option GoError)
deriving DecidableEq, Repr

/-- The state after one operation. -/
def FwOp.step (fw : FileWriter) : FwOp → FileWriter
  | .write p tn terr => (fw.Write p tn terr).fw
  | .close f c => (fw.Close f c).fw
  | .commit f => (fw.Commit f).fw
  | .cancel c r => (fw.Cancel c r).fw

/-- The state after a sequence of operations. -/
def runOps (fw : FileWriter) : List FwOp → FileWriter
  | [] => fw
  | op :: ops => runOps (FwOp.step fw op) ops

/-- d.fullPath: path.Join of the configured root and the logical sub path.
The cleaning behaviour of Go path.Join is modelled as plain joining with a
separator; no claim depends on path cleaning. -/
def fullPath (rootPath subPath : String) : String :=
  rootPath ++ "/" ++ subPath

/-- path.Dir: everything before the final separator (Go returns "." when
there is none); path cleaning is not modelled and no claim depends on the
fine structure of this function. -/
def parentDir (p : String) : String :=
  match p.toList.reverse.dropWhile (fun c => ¬ (c = '/')) with
  | [] => "."
  | _ :: rest => String.mk rest.reverse

/-- Result of client.Stat as seen by driver.Writer: a size, an
os.IsNotExist error, or some other error. -/
inductive StatOut where
  | ok (size : Int)
  | notExist
  | fail (e : GoError)
deriving DecidableEq, Repr

/-- Oracle answers for the external calls driver.Writer makes:
newHdfsClient, client.MkdirAll, client.Stat, client.Remove, and
client.Append or client.Create (whichever the append flag selects). -/
structure WriterEnv where
  clientErr : Option GoError
  mkdirErr : Option GoError
  stat : StatOut
  removeErr : Option GoError
  openErr : Option GoError
deriving DecidableEq, Repr

/-- The open step at the end of driver.Writer: client.Append in append
mode, client.Create otherwise; the create branch explicitly sets size 0. -/
def openHandle (fp : String) (append : Bool) (env : WriterEnv) (t : List Effect)
    (size : Int) : Except GoError FileWriter × List Effect :=
  if append then
    match env.openErr with
    | some e => (Except.error e, t ++ [Effect.clientAppend fp])
    | none => (Except.ok (newWriter fp size), t ++ [Effect.clientAppend fp])
  else
    match env.openErr with
    | some e => (Except.error e, t ++ [Effect.clientCreate fp])
    | none => (Except.ok (newWriter fp 0), t ++ [Effect.clientCreate fp])

/-- driver.Writer: make the parent directories, stat the target; on an
existing file record its size in append mode, or remove it in truncate
mode; then open the transport handle and wrap it in a fileWriter. -/
def driver.Writer (rootPath subPath : String) (append : Bool) (env : WriterEnv) :
    Except GoError FileWriter × List Effect :=
  let fp := fullPath rootPath subPath
  let pd := parentDir fp
  match env.clientErr with
  | some e => (Except.error e, [])
  | none =>
    match env.mkdirErr with
    | some e => (Except.error e, [Effect.clientMkdirAll pd])
    | none =>
      let t0 := [Effect.clientMkdirAll pd, Effect.clientStat fp]
      match env.stat with
      | StatOut.fail e => (Except.error e, t0)
      | StatOut.notExist => openHandle fp append env t0 0
      | StatOut.ok n =>
        if append then openHandle fp true env t0 n
        else
          match env.removeErr with
          | some e => (Except.error e, t0 ++ [Effect.clientRemove fp])
          | none => openHandle fp false env (t0 ++ [Effect.clientRemove fp]) 0

/-- Result of client.Open as seen by driver.Reader. -/
inductive OpenOut where
  | ok
  | notExist
  | fail (e : GoError)
deriving DecidableEq, Repr

/-- Oracle answers for the external calls driver.Reader makes:
newHdfsClient, client.Open, and file.Seek (which returns the position the
backend actually seeked to, or an error). -/
structure ReaderEnv where
  clientErr : Option GoError
  openOut : OpenOut
  seek : Except GoError Int
deriving Repr

/-- driver.Reader: open the file (absent gives the typed PathNotFoundError),
seek to the offset; a seek error or a seek position short of the requested
offset closes the handle and fails, the latter with the typed
InvalidOffsetError. On success the open handle is returned to the caller. -/
def driver.Reader (rootPath subPath : String) (offset : Int) (env : ReaderEnv) :
    Except GoError Unit × List Effect :=
  let fp := fullPath rootPath subPath
  match env.clientErr with
  | some e => (Except.error e, [])
  | none =>
    match env.openOut with
    | OpenOut.fail e => (Except.error e, [Effect.clientOpen fp])
    | OpenOut.notExist =>
      (Except.error (GoError.pathNotFound fp), [Effect.clientOpen fp])
    | OpenOut.ok =>
      let t0 := [Effect.clientOpen fp, Effect.handleOpened]
      match env.seek with
      | Except.error e => (Except.error e, t0 ++ [Effect.fileSeek offset, Effect.fileClose])
      | Except.ok seekPos =>
        if seekPos < offset then
          (Except.error (GoError.invalidOffset fp offset),
            t0 ++ [Effect.fileSeek offset, Effect.fileClose])
        else (Except.ok (), t0 ++ [Effect.fileSeek offset])

/-- io.Copy from a bytes.Reader into a fileWriter: the copy presents the
contents as a sequence of chunks; each element carries the chunk and the
oracle answer of the transport write underneath fileWriter.Write. The copy
stops at the first write error, and reports io.ErrShortWrite when a write
accepts fewer bytes than the chunk holds. -/
def ioCopy (fw : FileWriter) :
    List (List Nat × Nat × Option GoError) → FileWriter × Option GoError × List Effect
  | [] => (fw, none, [])
  | (chunk, tn, terr) :: rest =>
    let r := fw.Write chunk tn terr
    match r.err with
    | some e => (r.fw, some e, r.trace)
    | none =>
      if r.n < chunk.length then (r.fw, some GoError.shortWrite, r.trace)
      else
        let rec' := ioCopy r.fw rest
        (rec'.1, rec'.2.1, r.trace ++ rec'.2.2)

/-- driver.PutContent: open a writer in truncate mode, copy the contents in,
cancel on a copy failure (discarding the Cancel result) and return the copy
error, commit on success; the deferred writer.Close runs in either case
with its error discarded. Returns the error PutContent returns and the full
trace of external calls. -/
def driver.PutContent (rootPath subPath : String) (wenv : WriterEnv)
    (chunks : List (List Nat × Nat × Option GoError))
    (cancelCloseErr cancelRemoveErr commitFlushErr deferFlushErr deferCloseErr :
      Option GoError) : Option GoError × List Effect :=
  match driver.Writer rootPath subPath false wenv with
  | (Except.error e, t) => (some e, t)
  | (Except.ok w, t) =>
    let c := ioCopy w chunks
    match c.2.1 with
    | some e =>
      let rCancel := c.1.Cancel cancelCloseErr cancelRemoveErr
      let rClose := rCancel.fw.Close deferFlushErr deferCloseErr
      (some e, t ++ c.2.2 ++ rCancel.trace ++ rClose.trace)
    | none =>
      let rCommit := c.1.Commit commitFlushErr
      let rClose := rCommit.fw.Close deferFlushErr deferCloseErr
      (rCommit.err, t ++ c.2.2 ++ rCommit.trace ++ rClose.trace)

/-! Helper lemmas shared by the claim theorems. -/

/-- A Write never changes the path or the flags of the writer, only the
size. -/
theorem write_preserves_flags (fw : FileWriter) (p : List Nat) (tn : Nat)
    (terr : Option GoError) :
    (fw.Write p tn terr).fw.closed = fw.closed ∧
    (fw.Write p tn terr).fw.committed = fw.committed ∧
    (fw.Write p tn terr).fw.cancelled = fw.cancelled ∧
    (fw.Write p tn terr).fw.path = fw.path := by
  cases hcl : fw.closed <;> cases hco : fw.committed <;> cases hca : fw.cancelled <;>
    simp [FileWriter.Write, hcl, hco, hca]

/-- An operation applied to a writer whose closed flag is set returns the
state unchanged. -/
theorem step_of_closed (fw : FileWriter) (op : FwOp) (h : fw.closed = true) :
    FwOp.step fw op = fw := by
  cases op <;>
    simp [FwOp.step, FileWriter.Write, FileWriter.Close, FileWriter.Cancel,
      FileWriter.Commit, h]

/-- C1 (amended): the closed flag freezes the writer — from any state with
closed set, every sequence of Write, Close, Commit and Cancel operations
leaves the state unchanged, so after a Close neither terminal flag can newly
become true; the original mutual-exclusion half of the claim fails, since
Cancel guards only on closed and therefore also runs after a Commit. -/
theorem c1_closed_freezes_state (fw : FileWriter) (ops : List FwOp)
    (h : fw.closed = true) : runOps fw ops = fw := by
  induction ops with
  | nil => rfl
  | cons op ops ih =>
    simp only [runOps, step_of_closed fw op h]
    exact ih

/-- C1 witness: the frozen-state theorem evaluated on a closed writer and a
concrete operation sequence. -/
theorem c1_closed_freezes_state_witness :
    runOps { path := "p", size := 0, closed := true, committed := false, cancelled := false }
        [FwOp.write [1] 1 none, FwOp.commit none, FwOp.cancel none none] =
      { path := "p", size := 0, closed := true, committed := false, cancelled := false } :=
  c1_closed_freezes_state _ _ rfl

/-- C1 counterexample: on a fresh writer the sequence Commit then Cancel
makes both terminal flags true, refuting the claimed mutual exclusion of
committed and cancelled. -/
theorem c1_commit_then_cancel_sets_both_flags :
    (runOps (newWriter "p" 0) [FwOp.commit none, FwOp.cancel none none]).committed = true ∧
    (runOps (newWriter "p" 0) [FwOp.commit none, FwOp.cancel none none]).cancelled = true := by
  constructor <;> rfl

/-- C2 (amended): Cancel is guarded only by the closed flag. After a Close it
fails with the already-closed condition, performing no transport close and no
remove; in every state with closed unset — including after a Commit or a
prior Cancel — it sets cancelled, closes the transport handle, removes the
target path, and returns exactly the remove result. -/
theorem c2_cancel_guarded_only_by_closed (fw : FileWriter)
    (closeErr removeErr : Option GoError) :
    (fw.closed = true →
      fw.Cancel closeErr removeErr = ⟨fw, some GoError.alreadyClosed, []⟩) ∧
    (fw.closed = false →
      fw.Cancel closeErr removeErr =
        ⟨{ fw with cancelled := true }, removeErr,
          [Effect.fileClose, Effect.clientRemove fw.path]⟩) := by
  constructor <;> intro h <;> simp [FileWriter.Cancel, h]

/-- C2 witness: the amended theorem evaluated on a closed writer and on a
committed (not closed) writer, with a failing remove whose error is
returned. -/
theorem c2_cancel_guarded_only_by_closed_witness :
    ({ path := "p", size := 0, closed := true, committed := false,
        cancelled := false : FileWriter }).Cancel none none =
      ⟨{ path := "p", size := 0, closed := true, committed := false, cancelled := false },
        some GoError.alreadyClosed, []⟩ ∧
    ({ path := "p", size := 0, closed := false, committed := true,
        cancelled := false : FileWriter }).Cancel none (some (GoError.transport 3)) =
      ⟨{ path := "p", size := 0, closed := false, committed := true, cancelled := true },
        some (GoError.transport 3),
        [Effect.fileClose, Effect.clientRemove "p"]⟩ :=
  ⟨(c2_cancel_guarded_only_by_closed _ none none).1 rfl,
   (c2_cancel_guarded_only_by_closed _ none (some (GoError.transport 3))).2 rfl⟩

/-- C2 counterexample: Cancel invoked after a successful Commit does not fail
with an already-committed condition — it succeeds, performs the remove of
the target path, and leaves the writer cancelled. -/
theorem c2_cancel_after_commit_proceeds :
    ((((newWriter "p" 0).Commit none).fw.Cancel none none).err = none) ∧
    Effect.clientRemove "p" ∈ (((newWriter "p" 0).Commit none).fw.Cancel none none).trace ∧
    ((((newWriter "p" 0).Commit none).fw.Cancel none none).fw.cancelled = true) := by
  refine ⟨rfl, ?_, rfl⟩
  decide

/-- C3: Write is valid only in the Open state. With any flag set it fails
with the matching already-condition, returns byte count zero, performs no
transport write, and leaves the state (hence the cumulative size) unchanged;
in Open it passes the bytes to the transport handle, adds the accepted count
to the cumulative size, and returns that count together with the transport
error. -/
theorem c3_write_only_in_open (fw : FileWriter) (p : List Nat) (tn : Nat)
    (terr : Option GoError) :
    (fw.isOpen = false →
      (fw.Write p tn terr).fw = fw ∧ (fw.Write p tn terr).n = 0 ∧
      (fw.Write p tn terr).trace = [] ∧
      ((fw.Write p tn terr).err = some GoError.alreadyClosed ∨
        (fw.Write p tn terr).err = some GoError.alreadyCommitted ∨
        (fw.Write p tn terr).err = some GoError.alreadyCancelled)) ∧
    (fw.isOpen = true →
      fw.Write p tn terr =
        ⟨{ fw with size := fw.size + tn }, tn, terr, [Effect.fileWrite p tn]⟩) := by
  cases hcl : fw.closed <;> cases hco : fw.committed <;> cases hca : fw.cancelled <;>
    simp [FileWriter.isOpen, FileWriter.Write, hcl, hco, hca]

/-- C3 witness: the theorem evaluated on an open writer of size 7 accepting
2 bytes, and on a committed writer rejecting the write. -/
theorem c3_write_only_in_open_witness :
    (newWriter "p" 7).Write [1, 2] 2 none =
      ⟨{ path := "p", size := 9, closed := false, committed := false, cancelled := false },
        2, none, [Effect.fileWrite [1, 2] 2]⟩ ∧
    (({ path := "p", size := 7, closed := false, committed := true,
        cancelled := false : FileWriter }).Write [1, 2] 2 none).n = 0 := by
  constructor
  · have h := (c3_write_only_in_open (newWriter "p" 7) [1, 2] 2 none).2 rfl
    simpa [newWriter] using h
  · exact ((c3_write_only_in_open
      { path := "p", size := 7, closed := false, committed := true, cancelled := false }
      [1, 2] 2 none).1 rfl).2.1

/-- C4: Commit in the Open state with a successful flush flushes the
transport handle without closing it and transitions the writer to Committed;
a second Commit fails with the already-committed condition, and Commit after
a Close or a Cancel fails with the already-closed or already-cancelled
condition respectively, in every case leaving the state unchanged. -/
theorem c4_commit_only_in_open (fw : FileWriter) (flushErr : Option GoError) :
    (fw.isOpen = true →
      fw.Commit none = ⟨{ fw with committed := true }, none, [Effect.fileFlush]⟩ ∧
      Effect.fileClose ∉ (fw.Commit none).trace ∧
      ((fw.Commit none).fw.Commit flushErr =
        ⟨(fw.Commit none).fw, some GoError.alreadyCommitted, []⟩)) ∧
    (fw.closed = true → fw.Commit flushErr = ⟨fw, some GoError.alreadyClosed, []⟩) ∧
    (fw.closed = false → fw.committed = true →
      fw.Commit flushErr = ⟨fw, some GoError.alreadyCommitted, []⟩) ∧
    (fw.closed = false → fw.committed = false → fw.cancelled = true →
      fw.Commit flushErr = ⟨fw, some GoError.alreadyCancelled, []⟩) := by
  cases hcl : fw.closed <;> cases hco : fw.committed <;> cases hca : fw.cancelled <;>
    simp [FileWriter.isOpen, FileWriter.Commit, hcl, hco, hca]

/-- C4 witness: the theorem evaluated on a fresh open writer; the second
Commit fails with the already-committed condition. -/
theorem c4_commit_only_in_open_witness :
    (newWriter "p" 5).Commit none =
      ⟨{ path := "p", size := 5, closed := false, committed := true, cancelled := false },
        none, [Effect.fileFlush]⟩ ∧
    (((newWriter "p" 5).Commit none).fw.Commit none).err = some GoError.alreadyCommitted := by
  have h := (c4_commit_only_in_open (newWriter "p" 5) none).1 rfl
  refine ⟨by simpa [newWriter] using h.1, ?_⟩
  rw [h.2.2]

/-- C5: Close in the Open state with flush and transport close succeeding
flushes then closes the transport handle and sets the closed flag; a second
Close on the resulting writer fails with the already-closed condition rather
than being a no-op. -/
theorem c5_close_then_close_fails (fw : FileWriter) (f2 c2 : Option GoError)
    (h : fw.isOpen = true) :
    fw.Close none none =
      ⟨{ fw with closed := true }, none, [Effect.fileFlush, Effect.fileClose]⟩ ∧
    (fw.Close none none).fw.Close f2 c2 =
      ⟨(fw.Close none none).fw, some GoError.alreadyClosed, []⟩ := by
  have hcl : fw.closed = false := by
    cases hc : fw.closed <;> simp [FileWriter.isOpen, hc] at h ⊢
  simp [FileWriter.Close, hcl]

/-- C5 witness: the theorem evaluated on a fresh open writer. -/
theorem c5_close_then_close_fails_witness :
    (newWriter "p" 0).Close none none =
      ⟨{ path := "p", size := 0, closed := true, committed := false, cancelled := false },
        none, [Effect.fileFlush, Effect.fileClose]⟩ ∧
    (((newWriter "p" 0).Close none none).fw.Close none none).err =
      some GoError.alreadyClosed := by
  have h := c5_close_then_close_fails (newWriter "p" 0) none none rfl
  exact ⟨by simpa [newWriter] using h.1, by rw [h.2]⟩

/-- C9: a flush failure during Close, a transport close failure during
Close, and a flush failure during Commit each return the transport error
with the writer state completely unchanged — the closed or committed flag is
not set and the writer is still in the Open state. -/
theorem c9_failed_flush_leaves_state (fw : FileWriter) (e : GoError)
    (h : fw.isOpen = true) :
    fw.Close (some e) none = ⟨fw, some e, [Effect.fileFlush]⟩ ∧
    fw.Close none (some e) = ⟨fw, some e, [Effect.fileFlush, Effect.fileClose]⟩ ∧
    fw.Commit (some e) = ⟨fw, some e, [Effect.fileFlush]⟩ := by
  have hcl : fw.closed = false := by
    cases hc : fw.closed <;> simp [FileWriter.isOpen, hc] at h ⊢
  have hco : fw.committed = false := by
    cases hc : fw.committed <;> simp [FileWriter.isOpen, hc] at h ⊢
  have hca : fw.cancelled = false := by
    cases hc : fw.cancelled <;> simp [FileWriter.isOpen, hc] at h ⊢
  simp [FileWriter.Close, FileWriter.Commit, hcl, hco, hca]

/-- C9 witness: the theorem evaluated on a fresh open writer with a failing
transport. -/
theorem c9_failed_flush_leaves_state_witness :
    (newWriter "p" 4).Close (some (GoError.transport 1)) none =
      ⟨newWriter "p" 4, some (GoError.transport 1), [Effect.fileFlush]⟩ ∧
    (newWriter "p" 4).Commit (some (GoError.transport 1)) =
      ⟨newWriter "p" 4, some (GoError.transport 1), [Effect.fileFlush]⟩ :=
  ⟨(c9_failed_flush_leaves_state (newWriter "p" 4) (GoError.transport 1) rfl).1,
   (c9_failed_flush_leaves_state (newWriter "p" 4) (GoError.transport 1) rfl).2.2⟩

/-- C10: on a writer whose closed flag is unset, Cancel ignores the result
of the transport close entirely — the output does not depend on it — sets
the cancelled flag even when the remove fails, attempts both the transport
close and the remove of the target path, and the only error it returns is
exactly the remove result. -/
theorem c10_cancel_returns_remove_result (fw : FileWriter)
    (closeErr1 closeErr2 removeErr : Option GoError) (h : fw.closed = false) :
    fw.Cancel closeErr1 removeErr = fw.Cancel closeErr2 removeErr ∧
    (fw.Cancel closeErr1 removeErr).err = removeErr ∧
    (fw.Cancel closeErr1 removeErr).fw.cancelled = true ∧
    (fw.Cancel closeErr1 removeErr).trace =
      [Effect.fileClose, Effect.clientRemove fw.path] := by
  simp [FileWriter.Cancel, h]

/-- C10 witness: the theorem evaluated on a fresh open writer with a failing
transport close and a failing remove; the remove error is what Cancel
returns. -/
theorem c10_cancel_returns_remove_result_witness :
    ((newWriter "p" 0).Cancel (some (GoError.transport 1)) (some (GoError.transport 2))).err =
      some (GoError.transport 2) ∧
    ((newWriter "p" 0).Cancel (some (GoError.transport 1))
      (some (GoError.transport 2))).fw.cancelled = true :=
  ⟨(c10_cancel_returns_remove_result (newWriter "p" 0) (some (GoError.transport 1)) none
      (some (GoError.transport 2)) rfl).2.1,
   (c10_cancel_returns_remove_result (newWriter "p" 0) (some (GoError.transport 1)) none
      (some (GoError.transport 2)) rfl).2.2.1⟩

/-- C6: with all client calls succeeding and the target file existing with
size N, Writer in append mode returns a fileWriter whose initial size is N,
opens the handle with client.Append, and issues no remove; Writer in
truncate mode removes the pre-existing file, opens the handle with
client.Create, and returns a fileWriter whose initial size is zero. -/
theorem c6_writer_append_vs_truncate (rootPath subPath : String) (N : Int)
    (env : WriterEnv) (hc : env.clientErr = none) (hm : env.mkdirErr = none)
    (hs : env.stat = StatOut.ok N) (hr : env.removeErr = none)
    (ho : env.openErr = none) :
    driver.Writer rootPath subPath true env =
      (Except.ok (newWriter (fullPath rootPath subPath) N),
        [Effect.clientMkdirAll (parentDir (fullPath rootPath subPath)),
         Effect.clientStat (fullPath rootPath subPath),
         Effect.clientAppend (fullPath rootPath subPath)]) ∧
    driver.Writer rootPath subPath false env =
      (Except.ok (newWriter (fullPath rootPath subPath) 0),
        [Effect.clientMkdirAll (parentDir (fullPath rootPath subPath)),
         Effect.clientStat (fullPath rootPath subPath),
         Effect.clientRemove (fullPath rootPath subPath),
         Effect.clientCreate (fullPath rootPath subPath)]) := by
  constructor <;> simp [driver.Writer, openHandle, hc, hm, hs, hr, ho]

/-- C6 witness: the theorem evaluated on a concrete root, path, size and
all-success environment. -/
theorem c6_writer_append_vs_truncate_witness :
    driver.Writer "root" "a/b" true
        { clientErr := none, mkdirErr := none, stat := StatOut.ok 42,
          removeErr := none, openErr := none } =
      (Except.ok (newWriter "root/a/b" 42),
        [Effect.clientMkdirAll "root/a", Effect.clientStat "root/a/b",
         Effect.clientAppend "root/a/b"]) ∧
    driver.Writer "root" "a/b" false
        { clientErr := none, mkdirErr := none, stat := StatOut.ok 42,
          removeErr := none, openErr := none } =
      (Except.ok (newWriter "root/a/b" 0),
        [Effect.clientMkdirAll "root/a", Effect.clientStat "root/a/b",
         Effect.clientRemove "root/a/b", Effect.clientCreate "root/a/b"]) := by
  have h := c6_writer_append_vs_truncate "root" "a/b" 42
    { clientErr := none, mkdirErr := none, stat := StatOut.ok 42,
      removeErr := none, openErr := none } rfl rfl rfl rfl rfl
  have hfp : fullPath "root" "a/b" = "root/a/b" := rfl
  have hpd : parentDir (fullPath "root" "a/b") = "root/a" := by decide
  constructor
  · rw [← hfp, ← hpd]; exact h.1
  · rw [← hfp, ← hpd]; exact h.2

/-- C8: Reader fails with the typed path-not-found condition when the open
reports the path absent (no handle was opened there), fails with the typed
invalid-offset condition when the backend seeked to a position short of the
requested offset, propagates a seek error — and in every error outcome in
which a handle was opened, the handle is closed before returning. -/
theorem c8_reader_errors (rootPath subPath : String) (offset pos : Int)
    (env : ReaderEnv) (e0 : GoError) (hc : env.clientErr = none) :
    (env.openOut = OpenOut.notExist →
      driver.Reader rootPath subPath offset env =
        (Except.error (GoError.pathNotFound (fullPath rootPath subPath)),
          [Effect.clientOpen (fullPath rootPath subPath)])) ∧
    (env.openOut = OpenOut.ok → env.seek = Except.ok pos → pos < offset →
      driver.Reader rootPath subPath offset env =
        (Except.error (GoError.invalidOffset (fullPath rootPath subPath) offset),
          [Effect.clientOpen (fullPath rootPath subPath), Effect.handleOpened,
           Effect.fileSeek offset, Effect.fileClose])) ∧
    (env.openOut = OpenOut.ok → env.seek = Except.error e0 →
      driver.Reader rootPath subPath offset env =
        (Except.error e0,
          [Effect.clientOpen (fullPath rootPath subPath), Effect.handleOpened,
           Effect.fileSeek offset, Effect.fileClose])) ∧
    (∀ e, (driver.Reader rootPath subPath offset env).1 = Except.error e →
      Effect.handleOpened ∈ (driver.Reader rootPath subPath offset env).2 →
      Effect.fileClose ∈ (driver.Reader rootPath subPath offset env).2) := by
  refine ⟨?_, ?_, ?_, ?_⟩
  · intro h1
    simp [driver.Reader, hc, h1]
  · intro h1 h2 h3
    simp [driver.Reader, hc, h1, h2, h3]
  · intro h1 h2
    simp [driver.Reader, hc, h1, h2]
  · intro e herr hmem
    rcases ho : env.openOut with _ | _ | e1
    · rcases hs : env.seek with e2 | pos2
      · simp [driver.Reader, hc, ho, hs]
      · by_cases hlt : pos2 < offset
        · simp [driver.Reader, hc, ho, hs, hlt]
        · simp [driver.Reader, hc, ho, hs, hlt] at herr
    · simp [driver.Reader, hc, ho] at hmem
    · simp [driver.Reader, hc, ho] at hmem

/-- C8 witness: the theorem evaluated on a concrete environment in which the
backend can seek only to position 3 of requested offset 10, producing the
typed invalid-offset error with the handle closed. -/
theorem c8_reader_errors_witness :
    driver.Reader "root" "f" 10
        { clientErr := none, openOut := OpenOut.ok, seek := Except.ok 3 } =
      (Except.error (GoError.invalidOffset "root/f" 10),
        [Effect.clientOpen "root/f", Effect.handleOpened,
         Effect.fileSeek 10, Effect.fileClose]) ∧
    driver.Reader "root" "f" 0
        { clientErr := none, openOut := OpenOut.notExist, seek := Except.ok 0 } =
      (Except.error (GoError.pathNotFound "root/f"), [Effect.clientOpen "root/f"]) := by
  have h1 := (c8_reader_errors "root" "f" 10 3
    { clientErr := none, openOut := OpenOut.ok, seek := Except.ok 3 }
    (GoError.transport 0) rfl).2.1 rfl rfl (by norm_num)
  have h2 := (c8_reader_errors "root" "f" 0 0
    { clientErr := none, openOut := OpenOut.notExist, seek := Except.ok 0 }
    (GoError.transport 0) rfl).1 rfl
  exact ⟨h1, h2⟩

/-- Every successful Writer call returns a freshly constructed fileWriter:
flags unset and path equal to the resolved full path. -/
theorem writer_ok_state (rootPath subPath : String) (append : Bool)
    (env : WriterEnv) (w : FileWriter) (t : List Effect)
    (h : driver.Writer rootPath subPath append env = (Except.ok w, t)) :
    w.closed = false ∧ w.committed = false ∧ w.cancelled = false ∧
    w.path = fullPath rootPath subPath := by
  rcases env with ⟨ce, me, st, re, oe⟩
  cases ce <;> cases me <;> cases st <;> cases re <;> cases oe <;> cases append <;>
    simp_all [driver.Writer, openHandle, newWriter]
  all_goals obtain ⟨hw, ht⟩ := h
  all_goals subst hw
  all_goals exact ⟨rfl, rfl, rfl, rfl⟩

/-- The copy loop only performs writes: it never changes the path or the
flags of the writer. -/
theorem ioCopy_preserves_flags (chunks : List (List Nat × Nat × Option GoError))
    (fw : FileWriter) :
    (ioCopy fw chunks).1.closed = fw.closed ∧
    (ioCopy fw chunks).1.committed = fw.committed ∧
    (ioCopy fw chunks).1.cancelled = fw.cancelled ∧
    (ioCopy fw chunks).1.path = fw.path := by
  induction chunks generalizing fw with
  | nil => simp [ioCopy]
  | cons ch rest ih =>
    obtain ⟨chunk, tn, terr⟩ := ch
    obtain ⟨h1, h2, h3, h4⟩ := write_preserves_flags fw chunk tn terr
    simp only [ioCopy]
    rcases herr : (fw.Write chunk tn terr).err with _ | e
    · by_cases hlt : (fw.Write chunk tn terr).n < chunk.length
      · simp [herr, hlt, h1, h2, h3, h4]
      · obtain ⟨g1, g2, g3, g4⟩ := ih (fw.Write chunk tn terr).fw
        simp only [herr, hlt, if_false]
        exact ⟨g1.trans h1, g2.trans h2, g3.trans h3, g4.trans h4⟩
    · simp [herr, h1, h2, h3, h4]

/-- C7: PutContent opens its writer in truncate mode; with the write handle
obtained, a failing copy makes PutContent cancel the writer — closing the
transport handle and removing the target path — and return the copy error
itself, the cancel and deferred-close results being discarded; a successful
copy makes it commit the writer (flush, no remove after the copy) and
return no error, the deferred close then closing the transport handle. -/
theorem c7_putContent_cancels_on_copy_failure (rootPath subPath : String)
    (wenv : WriterEnv) (w : FileWriter) (wtrace : List Effect)
    (chunks : List (List Nat × Nat × Option GoError)) (e : GoError)
    (cancelCloseErr cancelRemoveErr commitFlushErr : Option GoError)
    (hW : driver.Writer rootPath subPath false wenv = (Except.ok w, wtrace)) :
    ((ioCopy w chunks).2.1 = some e →
      driver.PutContent rootPath subPath wenv chunks cancelCloseErr cancelRemoveErr
          commitFlushErr none none =
        (some e, wtrace ++ (ioCopy w chunks).2.2 ++
          [Effect.fileClose, Effect.clientRemove (fullPath rootPath subPath),
           Effect.fileFlush, Effect.fileClose])) ∧
    ((ioCopy w chunks).2.1 = none →
      driver.PutContent rootPath subPath wenv chunks cancelCloseErr cancelRemoveErr
          none none none =
        (none, wtrace ++ (ioCopy w chunks).2.2 ++
          [Effect.fileFlush, Effect.fileFlush, Effect.fileClose])) := by
  obtain ⟨hcl, hco, hca, hpath⟩ := writer_ok_state rootPath subPath false wenv w wtrace hW
  obtain ⟨g1, g2, g3, g4⟩ := ioCopy_preserves_flags chunks w
  constructor
  · intro hcopy
    simp [driver.PutContent, hW, hcopy, FileWriter.Cancel, FileWriter.Close,
      g1.trans hcl, g4.trans hpath]
  · intro hcopy
    simp [driver.PutContent, hW, hcopy, FileWriter.Commit, FileWriter.Close,
      g1.trans hcl, g2.trans hco, g3.trans hca]

/-- C7 witness: on a fresh path, a copy whose single chunk write fails with
a transport error leads to cancel, remove and the copy error returned, while
the same call with the write succeeding commits and returns no error. -/
theorem c7_putContent_cancels_on_copy_failure_witness :
    driver.PutContent "r" "f"
        { clientErr := none, mkdirErr := none, stat := StatOut.notExist,
          removeErr := none, openErr := none }
        [([1, 2], 2, some (GoError.transport 5))] none none none none none =
      (some (GoError.transport 5),
        [Effect.clientMkdirAll "r", Effect.clientStat "r/f", Effect.clientCreate "r/f",
         Effect.fileWrite [1, 2] 2, Effect.fileClose, Effect.clientRemove "r/f",
         Effect.fileFlush, Effect.fileClose]) ∧
    driver.PutContent "r" "f"
        { clientErr := none, mkdirErr := none, stat := StatOut.notExist,
          removeErr := none, openErr := none }
        [([1, 2], 2, none)] none none none none none =
      (none,
        [Effect.clientMkdirAll "r", Effect.clientStat "r/f", Effect.clientCreate "r/f",
         Effect.fileWrite [1, 2] 2, Effect.fileFlush, Effect.fileFlush,
         Effect.fileClose]) := by
  constructor
  · have h := (c7_putContent_cancels_on_copy_failure "r" "f"
      { clientErr := none, mkdirErr := none, stat := StatOut.notExist,
        removeErr := none, openErr := none }
      (newWriter "r/f" 0)
      [Effect.clientMkdirAll "r", Effect.clientStat "r/f", Effect.clientCreate "r/f"]
      [([1, 2], 2, some (GoError.transport 5))] (GoError.transport 5)
      none none none rfl).1 rfl
    exact h
  · have h := (c7_putContent_cancels_on_copy_failure "r" "f"
      { clientErr := none, mkdirErr := none, stat := StatOut.notExist,
        removeErr := none, openErr := none }
      (newWriter "r/f" 0)
      [Effect.clientMkdirAll "r", Effect.clientStat "r/f", Effect.clientCreate "r/f"]
      [([1, 2], 2, none)] (GoError.transport 5)
      none none none rfl).2 rfl
    exact h

end Hdfs
